import Mathlib

/-!
Shallow embedding of `src/main.cpp` (ESP32 NFC music box).

State variables, the tag-presence classification, the playback arbiter, the
grace-period monitor, the volume controller and the button debouncer are
translated function by function from the source.  Hardware calls
(`dfPlayer.play`, `dfPlayer.stop`, `dfPlayer.volume`, `digitalWrite` for the
LED) are modelled as an emitted list of `Command`s; environment reads
(`millis()`, `digitalRead`, `nfc.readPassiveTargetID`, `nfc.ntag2xx_ReadPage`)
become explicit arguments.
-/

set_option maxRecDepth 10000

namespace AvatarMusicBox

/-- `unsigned long` on the ESP32 target is 32 bits wide. -/
def U32 : Nat := 4294967296

/-- Wraparound-safe subtraction of 32-bit millisecond timestamps:
the C expression `now - before` on `unsigned long`. -/
def usub (a b : Nat) : Nat := (a % U32 + (U32 - b % U32)) % U32

-- ==================== CONSTANTS ====================
def DEFAULT_VOLUME : Int := 20
def MAX_VOLUME : Int := 30
def MIN_VOLUME : Int := 0
def NFC_CHECK_INTERVAL : Nat := 200
def TAG_GRACE_PERIOD : Nat := 2000
def BUTTON_DEBOUNCE_DELAY : Nat := 200

/-- Side effects issued to the hardware collaborators: `dfPlayer.play`,
`dfPlayer.stop`, `dfPlayer.volume`, and `setLED`. -/
inductive Command where
  | play (track : Int)
  | stop
  | setVolume (level : Int)
  | led (lit : Bool)
deriving DecidableEq

/-- `struct SystemState` from the source.  `lastUID` models the 7-byte
`uint8_t lastUID[7]` buffer, so it always has length 7. -/
structure SystemState where
  lastUID : List Nat
  lastUIDLength : Nat
  lastTagDetectionTime : Nat
  lastNFCCheckTime : Nat
  isTagPresent : Bool
  isSongPlaying : Bool
  currentTrack : Int
  currentVolume : Int
deriving DecidableEq

/-- The initializers of `struct SystemState`. -/
def initialState : SystemState :=
  { lastUID := [0, 0, 0, 0, 0, 0, 0]
    lastUIDLength := 0
    lastTagDetectionTime := 0
    lastNFCCheckTime := 0
    isTagPresent := false
    isSongPlaying := false
    currentTrack := 0
    currentVolume := DEFAULT_VOLUME }

/-- `struct ButtonState` from the source.  The raw levels are stored as the
booleans assigned in `checkVolumeButtons` (`upPressed` / `downPressed`); the
`= HIGH` initializers make both start out `true`. -/
structure ButtonState where
  lastUpState : Bool
  lastDownState : Bool
  lastUpPress : Nat
  lastDownPress : Nat
deriving DecidableEq

/-- The initializers of `struct ButtonState` (`HIGH` is truthy). -/
def initialButtons : ButtonState :=
  { lastUpState := true, lastDownState := true, lastUpPress := 0, lastDownPress := 0 }

-- ==================== UTILITY FUNCTIONS ====================

/-- `uidsMatch(uid1, uid2, length)`: compares exactly the first `length` bytes
of the two buffers; out-of-range list reads model in-bounds reads of the
fixed 7-byte arrays. -/
def uidsMatch (uid1 uid2 : List Nat) (length : Nat) : Bool :=
  (List.range length).all fun i => uid1.getD i 0 == uid2.getD i 0

-- ==================== PLAYBACK CONTROL ====================

/-- `playSong(trackNumber)`. -/
def playSong (trackNumber : Int) (s : SystemState) : SystemState × List Command :=
  ({ s with currentTrack := trackNumber, isSongPlaying := true },
   [Command.play trackNumber, Command.led true])

/-- `stopSong()`: a no-op when nothing is playing. -/
def stopSong (s : SystemState) : SystemState × List Command :=
  if !s.isSongPlaying then (s, [])
  else
    ({ s with isSongPlaying := false, currentTrack := 0 },
     [Command.stop, Command.led false])

-- ==================== VOLUME CONTROL ====================

/-- `adjustVolume(delta)`: clamps into `[MIN_VOLUME, MAX_VOLUME]` and always
issues a `dfPlayer.volume` command with the new level. -/
def adjustVolume (delta : Int) (s : SystemState) : SystemState × List Command :=
  let newVolume := s.currentVolume + delta
  let newVolume := if newVolume < MIN_VOLUME then MIN_VOLUME else newVolume
  let newVolume := if newVolume > MAX_VOLUME then MAX_VOLUME else newVolume
  ({ s with currentVolume := newVolume }, [Command.setVolume newVolume])

/-- `checkVolumeButtons()`.  `now` is `millis()`; `upPressed` / `downPressed`
are `digitalRead(pin) == LOW` for the two buttons. -/
def checkVolumeButtons (now : Nat) (upPressed downPressed : Bool)
    (b : ButtonState) (s : SystemState) : ButtonState × SystemState × List Command :=
  let (b1, s1, c1) :=
    if upPressed && !b.lastUpState &&
        decide (usub now b.lastUpPress > BUTTON_DEBOUNCE_DELAY) then
      let (s1, c1) := adjustVolume 1 s
      ({ b with lastUpPress := now }, s1, c1)
    else (b, s, [])
  let b1 := { b1 with lastUpState := upPressed }
  let (b2, s2, c2) :=
    if downPressed && !b1.lastDownState &&
        decide (usub now b1.lastDownPress > BUTTON_DEBOUNCE_DELAY) then
      let (s2, c2) := adjustVolume (-1) s1
      ({ b1 with lastDownPress := now }, s2, c2)
    else (b1, s1, [])
  let b2 := { b2 with lastDownState := downPressed }
  (b2, s2, c1 ++ c2)

-- ==================== NFC TAG READING / WRITING ====================

/-- `readSongNumberFromTag()`.  The argument is the outcome of
`nfc.ntag2xx_ReadPage(4, data)`: `none` for a failed read, otherwise the four
bytes read.  Returns the song number, or `-1` on failure or an invalid
record (magic is `'S' 'O' 'N'` = 83 79 78). -/
def readSongNumberFromTag (page : Option (List Nat)) : Int :=
  match page with
  | none => -1
  | some data =>
    if data.getD 0 0 == 83 && data.getD 1 0 == 79 && data.getD 2 0 == 78 then
      let songNum : Int := (data.getD 3 0 : Nat)
      if 1 ≤ songNum && songNum ≤ 99 then songNum else -1
    else -1

/-- The 4-byte page that `writeSongNumber(songNum)` writes at page 4:
the magic bytes `'S' 'O' 'N'` followed by the song number (a `uint8_t`,
hence reduced mod 256). -/
def writeSongPage (songNum : Nat) : List Nat := [83, 79, 78, songNum % 256]

-- ==================== TAG HANDLING FOR PLAY MODE ====================

/-- `handleNewTag(uid, rawUID, length)`: reads the song record and arbitrates
playback.  The UID parameters are only printed in the source, so they are
dropped here; `page` is the page-4 read outcome consumed by
`readSongNumberFromTag`. -/
def handleNewTag (page : Option (List Nat)) (s : SystemState) : SystemState × List Command :=
  let songNumber := readSongNumberFromTag page
  if songNumber == -1 then
    stopSong s
  else
    let (s1, c1) :=
      if s.isSongPlaying && s.currentTrack != songNumber then stopSong s else (s, [])
    let (s2, c2) :=
      if !s1.isSongPlaying then playSong songNumber s1 else (s1, [])
    (s2, c1 ++ c2)

/-- One poll outcome of `nfc.readPassiveTargetID`: no tag, or a tag with the
given UID bytes (`uidLength = uid.length`) together with the page-4 read
outcome a subsequent `handleNewTag` would observe. -/
inductive TagRead where
  | noTag
  | present (uid : List Nat) (page : Option (List Nat))
deriving DecidableEq

/-- `memcpy(state.lastUID, uid, uidLength)` on the fixed 7-byte buffer:
positions below `n` take the source bytes, the rest keep the old bytes. -/
def memcpy7 (dst src : List Nat) (n : Nat) : List Nat :=
  (List.range 7).map fun i => if i < n then src.getD i 0 else dst.getD i 0

/-- `checkNFCTag()`.  `now` is the `millis()` call inside it; `read` is the
poll outcome. -/
def checkNFCTag (now : Nat) (read : TagRead) (s : SystemState) : SystemState × List Command :=
  match read with
  | .present uid page =>
    let s0 := { s with lastTagDetectionTime := now }
    let isNewTag := !s0.isTagPresent || !uidsMatch uid s0.lastUID uid.length
    let (s1, cmds) :=
      if isNewTag then
        let (s1, cmds) := handleNewTag page s0
        ({ s1 with lastUID := memcpy7 s1.lastUID uid uid.length,
                   lastUIDLength := uid.length }, cmds)
      else (s0, [])
    ({ s1 with isTagPresent := true }, cmds)
  | .noTag =>
    if s.isTagPresent then ({ s with isTagPresent := false }, []) else (s, [])

/-- `handleGracePeriod()`. -/
def handleGracePeriod (now : Nat) (s : SystemState) : SystemState × List Command :=
  if s.isTagPresent || !s.isSongPlaying then (s, [])
  else if usub now s.lastTagDetectionTime > TAG_GRACE_PERIOD then stopSong s
  else (s, [])

-- ==================== DERIVED / TRACE DEFINITIONS ====================

/-- The spec's tag-event classification, as the source realises it: the
branch `!state.isTagPresent || !uidsMatch(uid, state.lastUID, uidLength)`
inside `checkNFCTag` decides whether `handleNewTag` runs. -/
inductive TagEvent where
  | absent
  | sameTagPresent
  | newTag (uid : List Nat)
deriving DecidableEq

/-- The classification `checkNFCTag` performs on one poll outcome. -/
def classify (read : TagRead) (s : SystemState) : TagEvent :=
  match read with
  | .noTag => .absent
  | .present uid _ =>
    if !s.isTagPresent || !uidsMatch uid s.lastUID uid.length then .newTag uid
    else .sameTagPresent

/-- Modelled from the spec: "Two UIDs are equal iff lengths match and all
bytes match."  A UID is a byte buffer together with its valid length (the
source keeps `lastUID` and `lastUIDLength` separately).  Used only to
compare the spec's UID equality with the source's `uidsMatch`. -/
def specUidEq (u1 : List Nat) (len1 : Nat) (u2 : List Nat) (len2 : Nat) : Bool :=
  len1 == len2 && (List.range len1).all fun i => u1.getD i 0 == u2.getD i 0

/-- One scheduler-visible step in Play mode: a tag poll (`checkNFCTag`) or a
grace-period check (`handleGracePeriod`), each at its `millis()` value. -/
inductive LoopTick where
  | nfc (now : Nat) (read : TagRead)
  | grace (now : Nat)

/-- Run one tick. -/
def loopStep (s : SystemState) (t : LoopTick) : SystemState × List Command :=
  match t with
  | .nfc now read => checkNFCTag now read s
  | .grace now => handleGracePeriod now s

/-- Run a sequence of ticks, concatenating the emitted commands in order. -/
def runLoop (s : SystemState) : List LoopTick → SystemState × List Command
  | [] => (s, [])
  | t :: rest =>
    let (s1, c1) := loopStep s t
    let (s2, c2) := runLoop s1 rest
    (s2, c1 ++ c2)

/-- Number of `stop` commands in an emitted command list. -/
def countStops (cmds : List Command) : Nat := cmds.count Command.stop

/-- Number of volume-set commands in an emitted command list. -/
def countSetVolume (cmds : List Command) : Nat :=
  (cmds.filter fun c => match c with | .setVolume _ => true | _ => false).length

/-- Run a sequence of `checkVolumeButtons` calls; each element gives the
`millis()` value and the two raw pressed levels sampled for that call. -/
def runButtons (b : ButtonState) (s : SystemState) :
    List (Nat × Bool × Bool) → ButtonState × SystemState × List Command
  | [] => (b, s, [])
  | (now, up, down) :: rest =>
    let (b1, s1, c1) := checkVolumeButtons now up down b s
    let (b2, s2, c2) := runButtons b1 s1 rest
    (b2, s2, c1 ++ c2)

/-- A tick carrying no tag detection: a grace check or a poll returning
`noTag`. -/
def noDetect : LoopTick → Bool
  | .nfc _ TagRead.noTag => true
  | .nfc _ (TagRead.present _ _) => false
  | .grace _ => true

/-- A grace-check tick whose elapsed time since `t0` exceeds the grace
period. -/
def graceExceeds (t0 : Nat) : LoopTick → Bool
  | .grace t => decide (usub t t0 > TAG_GRACE_PERIOD)
  | .nfc _ _ => false

/-- A grace-check tick. -/
def isGrace : LoopTick → Bool
  | .grace _ => true
  | .nfc _ _ => false

/-- A reachable configuration for C1: a 7-byte-UID tag was last stored and is
classified currently present; the next poll detects a 4-byte UID that is a
strict prefix of the stored bytes (a tag swap between two polls). -/
def c1State : SystemState :=
  { initialState with
      lastUID := [4, 21, 90, 128, 3, 16, 133]
      lastUIDLength := 7
      isTagPresent := true
      isSongPlaying := true
      currentTrack := 9 }

/-- The C3 scenario: one initial released sample (the `= HIGH` initializer
makes the very first sample count as active, so a release must be observed
before any edge), then 15 up presses 500 ms apart, each followed by a
release.  Each element is `(millis, upPressed, downPressed)`. -/
def c3Calls : List (Nat × Bool × Bool) :=
  [(0, false, false),
   (500, true, false), (750, false, false),
   (1000, true, false), (1250, false, false),
   (1500, true, false), (1750, false, false),
   (2000, true, false), (2250, false, false),
   (2500, true, false), (2750, false, false),
   (3000, true, false), (3250, false, false),
   (3500, true, false), (3750, false, false),
   (4000, true, false), (4250, false, false),
   (4500, true, false), (4750, false, false),
   (5000, true, false), (5250, false, false),
   (5500, true, false), (5750, false, false),
   (6000, true, false), (6250, false, false),
   (6500, true, false), (6750, false, false),
   (7000, true, false), (7250, false, false),
   (7500, true, false), (7750, false, false)]

/-- The playback-state invariant of the spec: a current track is recorded
iff playback is active (`currentTrack != 0` plays the role of
`currentTrack.is_some()`). -/
def trackInv (s : SystemState) : Prop :=
  s.isSongPlaying = true ↔ s.currentTrack ≠ 0

instance (s : SystemState) : Decidable (trackInv s) := by
  unfold trackInv; infer_instance

-- ==================== HELPER LEMMAS ====================

/-- `adjustVolume` computes exactly the saturating clamp of `level + delta`
into `[MIN_VOLUME, MAX_VOLUME]` and reports the clamped level to the player. -/
lemma adjustVolume_clamp (delta : Int) (s : SystemState) :
    adjustVolume delta s =
      ({ s with currentVolume := max MIN_VOLUME (min MAX_VOLUME (s.currentVolume + delta)) },
       [Command.setVolume (max MIN_VOLUME (min MAX_VOLUME (s.currentVolume + delta)))]) := by
  unfold adjustVolume MIN_VOLUME MAX_VOLUME
  dsimp only
  split_ifs with h1 h2 h3 <;> simp_all <;> omega

/-- A song number decoded from a tag page is `-1` or lies in `[1, 99]`. -/
lemma readSongNumber_cases (page : Option (List Nat)) :
    readSongNumberFromTag page = -1
    ∨ (1 ≤ readSongNumberFromTag page ∧ readSongNumberFromTag page ≤ 99) := by
  unfold readSongNumberFromTag
  cases page with
  | none => exact Or.inl rfl
  | some data =>
    dsimp only
    split_ifs with h1 h2
    · right
      simpa using h2
    · exact Or.inl rfl
    · exact Or.inl rfl

lemma trackInv_playSong (n : Int) (s : SystemState) (hn : 1 ≤ n) :
    trackInv (playSong n s).1 := by
  unfold trackInv playSong
  simp
  omega

lemma trackInv_stopSong (s : SystemState) (h : trackInv s) :
    trackInv (stopSong s).1 := by
  unfold stopSong
  split_ifs with hp
  · exact h
  · unfold trackInv
    simp

lemma trackInv_handleNewTag (page : Option (List Nat)) (s : SystemState) (h : trackInv s) :
    trackInv (handleNewTag page s).1 := by
  simp only [handleNewTag]
  rcases readSongNumber_cases page with hbad | ⟨h1, h2⟩
  · rw [hbad]
    simpa using trackInv_stopSong s h
  · have hne : (readSongNumberFromTag page == (-1 : Int)) = false := by
      simp only [beq_eq_false_iff_ne, ne_eq]
      omega
    rw [hne]
    simp only [Bool.false_eq_true, if_false]
    set s1p := if s.isSongPlaying && s.currentTrack != readSongNumberFromTag page
        then stopSong s else (s, []) with hs1
    have hinv1 : trackInv s1p.1 := by
      rw [hs1]
      split_ifs with hc
      · exact trackInv_stopSong s h
      · exact h
    by_cases hp : s1p.1.isSongPlaying = true
    · simp [hp, hinv1]
    · simp only [Bool.not_eq_true] at hp
      simp [hp]
      exact trackInv_playSong _ _ h1

lemma trackInv_checkNFCTag (now : Nat) (read : TagRead) (s : SystemState) (h : trackInv s) :
    trackInv (checkNFCTag now read s).1 := by
  unfold checkNFCTag
  cases read with
  | noTag =>
    split_ifs with hp
    · unfold trackInv at h ⊢
      simpa using h
    · exact h
  | present uid page =>
    dsimp only
    split_ifs with hnew
    · have := trackInv_handleNewTag page { s with lastTagDetectionTime := now }
        (by unfold trackInv at h ⊢; simpa using h)
      unfold trackInv at this ⊢
      simpa using this
    · unfold trackInv at h ⊢
      simpa using h

lemma trackInv_handleGracePeriod (now : Nat) (s : SystemState) (h : trackInv s) :
    trackInv (handleGracePeriod now s).1 := by
  unfold handleGracePeriod
  split_ifs with h1 h2
  · exact h
  · exact trackInv_stopSong s h
  · exact h


lemma runLoop_not_playing (ticks : List LoopTick) (s : SystemState)
    (hp : s.isSongPlaying = false) (hnd : ticks.all noDetect = true) :
    (runLoop s ticks).2 = [] := by
  induction ticks generalizing s with
  | nil => rfl
  | cons t rest ih =>
    simp only [List.all_cons, Bool.and_eq_true] at hnd
    cases t with
    | grace now =>
      have hstep : handleGracePeriod now s = (s, []) := by
        unfold handleGracePeriod
        rw [hp]
        simp
      simp only [runLoop, loopStep, hstep]
      simpa using ih s hp hnd.2
    | nfc now read =>
      cases read with
      | noTag =>
        unfold runLoop loopStep checkNFCTag
        split_ifs with hpres
        · have hrec := ih ({ s with isTagPresent := false }) (by simpa using hp) hnd.2
          simpa using hrec
        · have hrec := ih s hp hnd.2
          simpa using hrec
      | present uid page =>
        simp [noDetect] at hnd


lemma grace_stop_count (ticks : List LoopTick) (s : SystemState)
    (hp : s.isSongPlaying = true) (ha : s.isTagPresent = false)
    (hnd : ticks.all noDetect = true) :
    countStops (runLoop s ticks).2
      = if ticks.any (graceExceeds s.lastTagDetectionTime) then 1 else 0 := by
  induction ticks generalizing s with
  | nil => simp [runLoop, countStops]
  | cons t rest ih =>
    simp only [List.all_cons, Bool.and_eq_true] at hnd
    cases t with
    | grace now =>
      by_cases he : usub now s.lastTagDetectionTime > TAG_GRACE_PERIOD
      · have hstep : handleGracePeriod now s
            = ({ s with isSongPlaying := false, currentTrack := 0 },
               [Command.stop, Command.led false]) := by
          unfold handleGracePeriod stopSong
          rw [ha, hp]
          simp [he]
        have hrest : (runLoop { s with isSongPlaying := false, currentTrack := 0 } rest).2 = [] :=
          runLoop_not_playing rest _ rfl hnd.2
        simp only [runLoop, loopStep, hstep, hrest]
        have hx : graceExceeds s.lastTagDetectionTime (LoopTick.grace now) = true := by
          simp [graceExceeds, he]
        simp [countStops, List.any_cons, hx]
      · have hstep : handleGracePeriod now s = (s, []) := by
          unfold handleGracePeriod
          rw [ha, hp]
          simp [he]
        simp only [runLoop, loopStep, hstep, List.any_cons]
        have hx : graceExceeds s.lastTagDetectionTime (LoopTick.grace now) = false := by
          simp [graceExceeds, he]
        simp only [hx, Bool.false_or]
        simpa using ih s hp ha hnd.2
    | nfc now read =>
      cases read with
      | noTag =>
        have hstep : checkNFCTag now TagRead.noTag s = (s, []) := by
          unfold checkNFCTag
          rw [ha]
          simp
        simp only [runLoop, loopStep, hstep, List.any_cons]
        have hx : graceExceeds s.lastTagDetectionTime (LoopTick.nfc now TagRead.noTag) = false := rfl
        simp only [hx, Bool.false_or]
        simpa using ih s hp ha hnd.2
      | present uid page =>
        simp [noDetect] at hnd


lemma handleNewTag_same_track (page : Option (List Nat)) (s : SystemState)
    (hplay : s.isSongPlaying = true)
    (hread : readSongNumberFromTag page = s.currentTrack)
    (htrk : 1 ≤ s.currentTrack) :
    handleNewTag page s = (s, []) := by
  unfold handleNewTag
  rw [hread]
  have h1 : (s.currentTrack == (-1 : Int)) = false := by
    simp only [beq_eq_false_iff_ne, ne_eq]
    omega
  rw [if_neg (by simp [h1])]
  have h2 : (s.isSongPlaying && s.currentTrack != s.currentTrack) = false := by
    simp
  rw [h2]
  simp [hplay]

lemma runLoop_present_grace (ticks : List LoopTick) (s : SystemState)
    (hp : s.isTagPresent = true) (hg : ticks.all isGrace = true) :
    (runLoop s ticks).2 = [] := by
  induction ticks generalizing s with
  | nil => rfl
  | cons t rest ih =>
    simp only [List.all_cons, Bool.and_eq_true] at hg
    cases t with
    | grace now =>
      have hstep : handleGracePeriod now s = (s, []) := by
        unfold handleGracePeriod
        rw [hp]
        simp
      simp only [runLoop, loopStep, hstep]
      simpa using ih s hp hg.2
    | nfc now read =>
      simp [isGrace] at hg

lemma redetect_no_stop (pre post : List LoopTick) (tr : Nat) (uid : List Nat)
    (page : Option (List Nat)) (s : SystemState)
    (hp : s.isSongPlaying = true) (ha : s.isTagPresent = false)
    (htrk : 1 ≤ s.currentTrack)
    (hread : readSongNumberFromTag page = s.currentTrack)
    (hnd : pre.all noDetect = true)
    (hng : pre.all (fun tk => !graceExceeds s.lastTagDetectionTime tk) = true)
    (hpost : post.all isGrace = true) :
    countStops (runLoop s (pre ++ LoopTick.nfc tr (TagRead.present uid page) :: post)).2 = 0 := by
  induction pre with
  | nil =>
    have hhandle : handleNewTag page { s with lastTagDetectionTime := tr, isTagPresent := false }
        = ({ s with lastTagDetectionTime := tr, isTagPresent := false }, []) :=
      handleNewTag_same_track page _ (by simpa using hp) (by simpa using hread)
        (by simpa using htrk)
    have hstep : checkNFCTag tr (TagRead.present uid page) s
        = ({ s with lastTagDetectionTime := tr, lastUID := memcpy7 s.lastUID uid uid.length, lastUIDLength := uid.length, isTagPresent := true }, []) := by
      unfold checkNFCTag
      rw [ha]
      simp only [Bool.not_false, Bool.true_or, if_true]
      rw [hhandle]
    have hrest : (runLoop { s with lastTagDetectionTime := tr, lastUID := memcpy7 s.lastUID uid uid.length, lastUIDLength := uid.length, isTagPresent := true } post).2 = [] :=
      runLoop_present_grace post _ rfl hpost
    simp only [List.nil_append, runLoop, loopStep, hstep, hrest]
    rfl
  | cons t rest ih =>
    simp only [List.all_cons, Bool.and_eq_true] at hnd hng
    have hng1 : graceExceeds s.lastTagDetectionTime t = false := by
      have := hng.1
      simpa using this
    have hstep : loopStep s t = (s, []) := by
      cases t with
      | grace now =>
        have : ¬ usub now s.lastTagDetectionTime > TAG_GRACE_PERIOD := by
          simpa [graceExceeds] using hng1
        unfold loopStep handleGracePeriod
        rw [ha, hp]
        simp [this]
      | nfc now read =>
        cases read with
        | noTag =>
          unfold loopStep checkNFCTag
          rw [ha]
          simp
        | present u p =>
          simp [noDetect] at hnd
    simp only [List.cons_append, runLoop, hstep]
    simpa using ih hnd.2 hng.2


lemma uidsMatch_memcpy7 (dst uid : List Nat) (h : uid.length ≤ 7) :
    uidsMatch uid (memcpy7 dst uid uid.length) uid.length = true := by
  unfold uidsMatch memcpy7
  rw [List.all_eq_true]
  intro i hi
  rw [List.mem_range] at hi
  have h7 : i < 7 := lt_of_lt_of_le hi h
  have hlen : i < ((List.range 7).map
      fun j => if j < uid.length then uid.getD j 0 else dst.getD j 0).length := by
    simpa using h7
  rw [List.getD_eq_getElem _ _ hlen]
  rw [List.getElem_map, List.getElem_range]
  rw [if_pos hi]
  simp

lemma checkNFCTag_same_uid (t : Nat) (uid : List Nat) (page : Option (List Nat))
    (s : SystemState) (hp : s.isTagPresent = true)
    (hm : uidsMatch uid s.lastUID uid.length = true) :
    checkNFCTag t (TagRead.present uid page) s = ({ s with lastTagDetectionTime := t }, []) := by
  obtain ⟨lu, lul, ltdt, lnct, itp, isp, ct, cv⟩ := s
  simp only at hp hm
  subst hp
  unfold checkNFCTag
  simp [hm]

lemma runLoop_same_uid (polls : List (Nat × Option (List Nat))) (uid : List Nat)
    (s : SystemState) (hp : s.isTagPresent = true)
    (hm : uidsMatch uid s.lastUID uid.length = true) :
    (runLoop s (polls.map fun tp => LoopTick.nfc tp.1 (TagRead.present uid tp.2))).2 = [] := by
  induction polls generalizing s with
  | nil => rfl
  | cons tp rest ih =>
    have hstep := checkNFCTag_same_uid tp.1 uid tp.2 s hp hm
    simp only [List.map_cons, runLoop, loopStep, hstep]
    have hp2 : ({ s with lastTagDetectionTime := tp.1 } : SystemState).isTagPresent = true := hp
    simpa using ih { s with lastTagDetectionTime := tp.1 } hp2 hm

lemma countStops_stopSong (s : SystemState) : countStops (stopSong s).2 ≤ 1 := by
  unfold stopSong
  split_ifs <;> simp [countStops]

lemma countStops_handleNewTag (page : Option (List Nat)) (s : SystemState) :
    countStops (handleNewTag page s).2 ≤ 1 := by
  simp only [handleNewTag]
  by_cases hb : (readSongNumberFromTag page == (-1 : Int)) = true
  · simp only [hb, if_true]
    exact countStops_stopSong s
  · rw [Bool.not_eq_true] at hb
    simp only [hb, Bool.false_eq_true, if_false]
    split_ifs <;>
      simp [countStops, stopSong, playSong, List.count_append] <;>
      split_ifs <;> simp


lemma checkNFCTag_present_state (t : Nat) (uid : List Nat) (page : Option (List Nat))
    (s : SystemState) (hlen : uid.length ≤ 7) :
    (checkNFCTag t (TagRead.present uid page) s).1.isTagPresent = true
    ∧ uidsMatch uid (checkNFCTag t (TagRead.present uid page) s).1.lastUID uid.length = true := by
  unfold checkNFCTag
  by_cases hnew : (!s.isTagPresent || !uidsMatch uid s.lastUID uid.length) = true
  · simp only [hnew, if_true]
    exact ⟨trivial, uidsMatch_memcpy7 _ uid hlen⟩
  · rw [Bool.not_eq_true] at hnew
    simp only [hnew, Bool.false_eq_true, if_false]
    have hm : uidsMatch uid s.lastUID uid.length = true := by
      rcases Bool.or_eq_false_iff.mp hnew with ⟨h1, h2⟩
      simpa using h2
    exact ⟨trivial, hm⟩

lemma countStops_checkNFCTag_present (t : Nat) (uid : List Nat) (page : Option (List Nat))
    (s : SystemState) :
    countStops (checkNFCTag t (TagRead.present uid page) s).2 ≤ 1 := by
  unfold checkNFCTag
  by_cases hnew : (!s.isTagPresent || !uidsMatch uid s.lastUID uid.length) = true
  · simp only [hnew, if_true]
    exact countStops_handleNewTag page _
  · rw [Bool.not_eq_true] at hnew
    simp only [hnew, Bool.false_eq_true, if_false]
    simp [countStops]

-- ==================== CLAIM THEOREMS ====================

/-- C7: The volume level lies in `[MIN_VOLUME, MAX_VOLUME] = [0, 30]`
initially and after every `adjustVolume delta` call for every integer
`delta`; the new level is the saturating clamp of `level + delta` into that
range, and the single volume-set command issued carries exactly that
in-range level. -/
theorem volume_always_clamped (s : SystemState) (delta : Int) :
    (adjustVolume delta s).1.currentVolume
        = max MIN_VOLUME (min MAX_VOLUME (s.currentVolume + delta))
    ∧ MIN_VOLUME ≤ (adjustVolume delta s).1.currentVolume
    ∧ (adjustVolume delta s).1.currentVolume ≤ MAX_VOLUME
    ∧ MIN_VOLUME ≤ initialState.currentVolume
    ∧ initialState.currentVolume ≤ MAX_VOLUME
    ∧ (adjustVolume delta s).2
        = [Command.setVolume (max MIN_VOLUME (min MAX_VOLUME (s.currentVolume + delta)))] := by
  rw [adjustVolume_clamp]
  refine ⟨rfl, ?_, ?_, by decide, by decide, rfl⟩
  · simp only [MIN_VOLUME]
    exact le_max_left _ _
  · simp only [MIN_VOLUME, MAX_VOLUME]
    omega

/-- C8: For every in-range song number `n` (1–99), writing the song record
for `n` (the page `{'S','O','N', n}` installed by `writeSongNumber`) and
decoding it back through `readSongNumberFromTag` yields exactly `n`. -/
theorem song_record_roundtrip (n : Nat) (h1 : 1 ≤ n) (h2 : n ≤ 99) :
    readSongNumberFromTag (some (writeSongPage n)) = (n : Int) := by
  unfold readSongNumberFromTag writeSongPage
  have hm : n % 256 = n := Nat.mod_eq_of_lt (by omega)
  simp only [hm, List.getD_cons_zero, List.getD_cons_succ]
  have hmagic : ((83 : Nat) == 83 && (79 : Nat) == 79 && (78 : Nat) == 78) = true := by decide
  rw [if_pos hmagic]
  rw [if_pos]
  simp only [decide_eq_true_eq, Bool.and_eq_true]
  constructor <;> [exact_mod_cast h1; exact_mod_cast h2]

/-- Witness for C8 at `n = 7`. -/
theorem song_record_roundtrip_witness :
    1 ≤ 7 ∧ 7 ≤ 99 ∧ readSongNumberFromTag (some (writeSongPage 7)) = (7 : Int) :=
  ⟨by decide, by decide, song_record_roundtrip 7 (by decide) (by decide)⟩

/-- C4: With playback active on track `n`, handling a new-tag event whose
song record decodes to the same valid index `n` issues no command at all and
leaves the whole system state unchanged. -/
theorem same_track_newtag_noop (page : Option (List Nat)) (s : SystemState)
    (hplay : s.isSongPlaying = true)
    (hread : readSongNumberFromTag page = s.currentTrack)
    (htrk : 1 ≤ s.currentTrack) :
    handleNewTag page s = (s, []) := by
  unfold handleNewTag
  rw [hread]
  have h1 : (s.currentTrack == (-1 : Int)) = false := by
    simp only [beq_eq_false_iff_ne, ne_eq]
    omega
  rw [if_neg (by simp [h1])]
  have h2 : (s.isSongPlaying && s.currentTrack != s.currentTrack) = false := by
    simp
  rw [h2]
  simp [hplay]

/-- Witness for C4: track 5 playing, same tag record re-read. -/
theorem same_track_newtag_noop_witness :
    ({ initialState with isSongPlaying := true, currentTrack := 5 } : SystemState).isSongPlaying = true
    ∧ readSongNumberFromTag (some [83, 79, 78, 5])
        = ({ initialState with isSongPlaying := true, currentTrack := 5 } : SystemState).currentTrack
    ∧ handleNewTag (some [83, 79, 78, 5])
        { initialState with isSongPlaying := true, currentTrack := 5 }
        = ({ initialState with isSongPlaying := true, currentTrack := 5 }, []) :=
  ⟨by decide, by decide,
    same_track_newtag_noop (some [83, 79, 78, 5])
      { initialState with isSongPlaying := true, currentTrack := 5 }
      (by decide) (by decide) (by decide)⟩

/-- C5: A new-tag event whose song record fails to read (`none`) or decodes
as invalid (`readSongNumberFromTag` gives `-1`, which covers a failed read,
wrong magic bytes, and a song number outside `[1, 99]`) behaves exactly like
`stopSong`: when playing it emits the stop command and clears the playback
state, when not playing it emits nothing and leaves the state unchanged, and
in no case does it emit a play command. -/
theorem invalid_record_stops_iff_playing (page : Option (List Nat)) (s : SystemState)
    (hbad : readSongNumberFromTag page = -1) :
    handleNewTag page s = stopSong s
    ∧ (s.isSongPlaying = false → handleNewTag page s = (s, []))
    ∧ (s.isSongPlaying = true →
        (handleNewTag page s).2 = [Command.stop, Command.led false]
        ∧ (handleNewTag page s).1.isSongPlaying = false
        ∧ (handleNewTag page s).1.currentTrack = 0)
    ∧ (∀ t : Int, Command.play t ∉ (handleNewTag page s).2)
    ∧ readSongNumberFromTag none = -1
    ∧ (∀ a b c d : Nat, ¬(a = 83 ∧ b = 79 ∧ c = 78) →
        readSongNumberFromTag (some [a, b, c, d]) = -1)
    ∧ (∀ a b c d : Nat, d = 0 ∨ 100 ≤ d →
        readSongNumberFromTag (some [a, b, c, d]) = -1) := by
  have hstop : handleNewTag page s = stopSong s := by
    unfold handleNewTag
    rw [hbad]
    simp
  refine ⟨hstop, ?_, ?_, ?_, rfl, ?_, ?_⟩
  · intro hnp
    rw [hstop]
    unfold stopSong
    simp [hnp]
  · intro hp
    rw [hstop]
    unfold stopSong
    simp [hp]
  · intro t
    rw [hstop]
    unfold stopSong
    split_ifs <;> simp
  · intro a b c d hmagic
    unfold readSongNumberFromTag
    simp only [List.getD_cons_zero, List.getD_cons_succ]
    rw [if_neg]
    simp only [Bool.and_eq_true, beq_iff_eq]
    omega
  · intro a b c d hd
    unfold readSongNumberFromTag
    simp only [List.getD_cons_zero, List.getD_cons_succ]
    split_ifs with h1 h2
    · exfalso
      simp only [Bool.and_eq_true, decide_eq_true_eq] at h2
      omega
    · rfl
    · rfl

/-- Witness for C5: a failed page read while track 3 is playing. -/
theorem invalid_record_stops_iff_playing_witness :
    readSongNumberFromTag none = -1
    ∧ handleNewTag none { initialState with isSongPlaying := true, currentTrack := 3 }
        = stopSong { initialState with isSongPlaying := true, currentTrack := 3 } :=
  ⟨by decide,
    (invalid_record_stops_iff_playing none
      { initialState with isSongPlaying := true, currentTrack := 3 } (by decide)).1⟩

/-- Counterexample to C1: the detected UID `[4,21,90,128]` is a strict prefix
of the stored 7-byte UID, so under the spec's UID equality the two differ and
the event should be `NewTag`; the code compares only the first `uidLength`
(detected-length) bytes, classifies `SameTagPresent`, and runs no handler
(no commands are emitted). -/
theorem prefix_uid_not_newtag_counterexample :
    c1State.isTagPresent = true
    ∧ specUidEq [4, 21, 90, 128] 4 c1State.lastUID c1State.lastUIDLength = false
    ∧ classify (TagRead.present [4, 21, 90, 128] (some [83, 79, 78, 9])) c1State
        = TagEvent.sameTagPresent
    ∧ classify (TagRead.present [4, 21, 90, 128] (some [83, 79, 78, 9])) c1State
        ≠ TagEvent.newTag [4, 21, 90, 128]
    ∧ (checkNFCTag 1000 (TagRead.present [4, 21, 90, 128] (some [83, 79, 78, 9])) c1State).2
        = [] := by
  decide

/-- C1 (amended): in Play mode, with a tag already classified currently
present, a detected tag is classified `NewTag` iff the detected UID's first
`uidLength` (detected-length) bytes differ from the stored `lastUID` bytes —
the stored length is not consulted.  `NewTag` still implies the two UIDs
differ under the spec's equality, but the converse fails: a detected UID that
is a strict prefix of the stored one is classified `SameTagPresent`, and
`checkNFCTag` then only refreshes the detection time and presence flag,
emitting no command. -/
theorem newtag_iff_detected_bytes_differ (uid : List Nat) (page : Option (List Nat))
    (s : SystemState) (now : Nat) (h : s.isTagPresent = true) :
    (classify (TagRead.present uid page) s = TagEvent.newTag uid
        ↔ uidsMatch uid s.lastUID uid.length = false)
    ∧ (uidsMatch uid s.lastUID uid.length = false →
        specUidEq uid uid.length s.lastUID s.lastUIDLength = false)
    ∧ (uidsMatch uid s.lastUID uid.length = true →
        checkNFCTag now (TagRead.present uid page) s
          = ({ s with lastTagDetectionTime := now, isTagPresent := true }, [])) := by
  refine ⟨?_, ?_, ?_⟩
  · unfold classify
    rw [h]
    cases hm : uidsMatch uid s.lastUID uid.length <;> simp [hm]
  · intro hm
    unfold specUidEq
    have : (List.range uid.length).all
        (fun i => uid.getD i 0 == s.lastUID.getD i 0) = false := hm
    rw [this]
    simp
  · intro hm
    unfold checkNFCTag
    dsimp only
    rw [h, hm]
    simp

/-- Witness for the amended C1 at the concrete strict-prefix configuration. -/
theorem newtag_iff_detected_bytes_differ_witness :
    c1State.isTagPresent = true
    ∧ ((classify (TagRead.present [4, 21, 90, 128] (some [83, 79, 78, 9])) c1State
          = TagEvent.newTag [4, 21, 90, 128]
        ↔ uidsMatch [4, 21, 90, 128] c1State.lastUID 4 = false)
      ∧ (uidsMatch [4, 21, 90, 128] c1State.lastUID 4 = false →
          specUidEq [4, 21, 90, 128] 4 c1State.lastUID c1State.lastUIDLength = false)
      ∧ (uidsMatch [4, 21, 90, 128] c1State.lastUID 4 = true →
          checkNFCTag 1000 (TagRead.present [4, 21, 90, 128] (some [83, 79, 78, 9])) c1State
            = ({ c1State with lastTagDetectionTime := 1000, isTagPresent := true }, []))) :=
  ⟨by decide,
    newtag_iff_detected_bytes_differ [4, 21, 90, 128] (some [83, 79, 78, 9]) c1State 1000
      (by decide)⟩

/-- Counterexample to C3: starting from the default volume 20, the 15
accepted up presses of `c3Calls` do clamp the level at 30 (reached at the
10th press), but every accepted press still issues a volume-set command:
15 commands in total, 6 of them `setVolume 30` (presses 10–15), where the
claim demands none after the level first reaches 30 (which would leave 10
commands and a single `setVolume 30`). -/
theorem clamped_press_still_issues_counterexample :
    (runButtons initialButtons initialState c3Calls).2.1.currentVolume = 30
    ∧ countSetVolume (runButtons initialButtons initialState c3Calls).2.2 = 15
    ∧ (runButtons initialButtons initialState c3Calls).2.2.count (Command.setVolume 30) = 6
    ∧ ¬ countSetVolume (runButtons initialButtons initialState c3Calls).2.2 = 10 := by
  decide

/-- C3 (amended): starting at level 20, the 15 accepted up presses of
`c3Calls` leave the level clamped at `MAX_VOLUME = 30`; an accepted up press
at level 30 keeps the level at 30 but still issues exactly one volume-set
command carrying the clamped in-range value 30 (the code never skips the
call), and symmetrically an accepted down press at level 0 keeps the level
at 0 and issues `setVolume 0`; no issued level is ever out of range. -/
theorem volume_clamps_but_still_issues (s : SystemState) (b : ButtonState) (now : Nat) :
    (s.currentVolume = MAX_VOLUME → b.lastUpState = false →
      usub now b.lastUpPress > BUTTON_DEBOUNCE_DELAY →
        (checkVolumeButtons now true false b s).2.1.currentVolume = MAX_VOLUME
        ∧ (checkVolumeButtons now true false b s).2.2 = [Command.setVolume MAX_VOLUME])
    ∧ (s.currentVolume = MIN_VOLUME → b.lastDownState = false →
      usub now b.lastDownPress > BUTTON_DEBOUNCE_DELAY →
        (checkVolumeButtons now false true b s).2.1.currentVolume = MIN_VOLUME
        ∧ (checkVolumeButtons now false true b s).2.2 = [Command.setVolume MIN_VOLUME])
    ∧ (∀ delta : Int, MIN_VOLUME ≤ (adjustVolume delta s).1.currentVolume
        ∧ (adjustVolume delta s).1.currentVolume ≤ MAX_VOLUME)
    ∧ (runButtons initialButtons initialState c3Calls).2.1.currentVolume = MAX_VOLUME := by
  refine ⟨?_, ?_, ?_, by decide⟩
  · intro hv hraw helapsed
    unfold checkVolumeButtons
    rw [hraw, adjustVolume_clamp]
    simp only [decide_eq_true helapsed]
    simp [hv, hraw, helapsed, adjustVolume_clamp, MIN_VOLUME, MAX_VOLUME]
  · intro hv hraw helapsed
    unfold checkVolumeButtons
    rw [hraw, adjustVolume_clamp]
    simp only [decide_eq_true helapsed]
    simp [hv, hraw, helapsed, adjustVolume_clamp, MIN_VOLUME, MAX_VOLUME]
  · intro delta
    rw [adjustVolume_clamp]
    constructor
    · simp only [MIN_VOLUME]
      exact le_max_left _ _
    · simp only [MIN_VOLUME, MAX_VOLUME]
      omega

/-- Witness for the amended C3: an accepted up press at level 30 and an
accepted down press at level 0. -/
theorem volume_clamps_but_still_issues_witness :
    ((checkVolumeButtons 1000 true false
        { initialButtons with lastUpState := false, lastDownState := false }
        { initialState with currentVolume := 30 }).2.1.currentVolume = MAX_VOLUME
      ∧ (checkVolumeButtons 1000 true false
        { initialButtons with lastUpState := false, lastDownState := false }
        { initialState with currentVolume := 30 }).2.2 = [Command.setVolume MAX_VOLUME])
    ∧ ((checkVolumeButtons 1000 false true
        { initialButtons with lastUpState := false, lastDownState := false }
        { initialState with currentVolume := 0 }).2.1.currentVolume = MIN_VOLUME
      ∧ (checkVolumeButtons 1000 false true
        { initialButtons with lastUpState := false, lastDownState := false }
        { initialState with currentVolume := 0 }).2.2 = [Command.setVolume MIN_VOLUME]) :=
  ⟨(volume_clamps_but_still_issues { initialState with currentVolume := 30 }
      { initialButtons with lastUpState := false, lastDownState := false } 1000).1
      (by decide) (by decide) (by decide),
   (volume_clamps_but_still_issues { initialState with currentVolume := 0 }
      { initialButtons with lastUpState := false, lastDownState := false } 1000).2.1
      (by decide) (by decide) (by decide)⟩

/-- C6: For each button independently, a call to `checkVolumeButtons` fires
a press event (emits a command) iff the raw sample is active now, the stored
previous raw sample was inactive, and more than `BUTTON_DEBOUNCE_DELAY =
200` ms (wraparound-safe) have passed since the last accepted press on that
button; the stored raw level is updated to the current sample on every call;
and two raw falling edges within 200 ms of each other yield exactly one
accepted press event. -/
theorem debounce_press_events (now : Nat) (up down : Bool) (b : ButtonState) (s : SystemState) :
    ((checkVolumeButtons now up false b s).2.2 ≠ []
        ↔ up = true ∧ b.lastUpState = false ∧ usub now b.lastUpPress > BUTTON_DEBOUNCE_DELAY)
    ∧ ((checkVolumeButtons now false down b s).2.2 ≠ []
        ↔ down = true ∧ b.lastDownState = false ∧ usub now b.lastDownPress > BUTTON_DEBOUNCE_DELAY)
    ∧ (checkVolumeButtons now up down b s).1.lastUpState = up
    ∧ (checkVolumeButtons now up down b s).1.lastDownState = down
    ∧ (∀ t1 t2 t3 : Nat, b.lastUpState = false →
        usub t1 b.lastUpPress > BUTTON_DEBOUNCE_DELAY →
        usub t3 t1 ≤ BUTTON_DEBOUNCE_DELAY →
        countSetVolume (runButtons b s
          [(t1, true, false), (t2, false, false), (t3, true, false)]).2.2 = 1) := by
  refine ⟨?_, ?_, ?_, ?_, ?_⟩
  · cases up <;> cases hL : b.lastUpState <;>
      by_cases hE : usub now b.lastUpPress > BUTTON_DEBOUNCE_DELAY <;>
      simp [checkVolumeButtons, adjustVolume_clamp, hL, hE]
  · cases down <;> cases hL : b.lastDownState <;>
      by_cases hE : usub now b.lastDownPress > BUTTON_DEBOUNCE_DELAY <;>
      simp [checkVolumeButtons, adjustVolume_clamp, hL, hE]
  · cases up <;> cases down <;>
      simp [checkVolumeButtons, adjustVolume_clamp] <;> split_ifs <;> simp
  · cases up <;> cases down <;>
      simp [checkVolumeButtons, adjustVolume_clamp]
  · intro t1 t2 t3 h1 h2 h3
    have hd2 : ¬ (usub t3 t1 > BUTTON_DEBOUNCE_DELAY) := not_lt.mpr h3
    simp [runButtons, checkVolumeButtons, adjustVolume_clamp, h1, h2, hd2, countSetVolume]

/-- Witness for C6: two falling edges 100 ms apart produce one event. -/
theorem debounce_press_events_witness :
    ({ initialButtons with lastUpState := false } : ButtonState).lastUpState = false
    ∧ usub 300 ({ initialButtons with lastUpState := false } : ButtonState).lastUpPress
        > BUTTON_DEBOUNCE_DELAY
    ∧ usub 400 300 ≤ BUTTON_DEBOUNCE_DELAY
    ∧ countSetVolume (runButtons { initialButtons with lastUpState := false } initialState
        [(300, true, false), (350, false, false), (400, true, false)]).2.2 = 1 :=
  ⟨by decide, by decide, by decide,
    (debounce_press_events 0 false false { initialButtons with lastUpState := false }
        initialState).2.2.2.2 300 350 400 (by decide) (by decide) (by decide)⟩

/-- C9: The playback-state invariant — a current track is recorded
(`currentTrack != 0`) iff playback is active (`isSongPlaying`) — holds
initially and is preserved by `playSong` (for the valid song indices it is
called with), `stopSong`, `handleNewTag`, `checkNFCTag` and
`handleGracePeriod`. -/
theorem playback_track_invariant :
    trackInv initialState
    ∧ (∀ (n : Int) (s : SystemState), 1 ≤ n → trackInv (playSong n s).1)
    ∧ (∀ s : SystemState, trackInv s → trackInv (stopSong s).1)
    ∧ (∀ (page : Option (List Nat)) (s : SystemState),
        trackInv s → trackInv (handleNewTag page s).1)
    ∧ (∀ (now : Nat) (read : TagRead) (s : SystemState),
        trackInv s → trackInv (checkNFCTag now read s).1)
    ∧ (∀ (now : Nat) (s : SystemState), trackInv s → trackInv (handleGracePeriod now s).1) :=
  ⟨by decide,
   fun n s hn => trackInv_playSong n s hn,
   fun s h => trackInv_stopSong s h,
   fun page s h => trackInv_handleNewTag page s h,
   fun now read s h => trackInv_checkNFCTag now read s h,
   fun now s h => trackInv_handleGracePeriod now s h⟩

/-- Witness for C9: the invariant after starting then stopping track 5. -/
theorem playback_track_invariant_witness :
    (1 : Int) ≤ 5
    ∧ trackInv (playSong 5 initialState).1
    ∧ trackInv (stopSong (playSong 5 initialState).1).1 :=
  ⟨by decide,
   playback_track_invariant.2.1 5 initialState (by decide),
   playback_track_invariant.2.2.1 (playSong 5 initialState).1 (by decide)⟩

/-- C2: From a state where a song is playing and the tag is absent
(removed at `lastTagDetectionTime`), a trace of ticks with no detection
issues exactly one stop command if some grace tick sees a wraparound-safe
elapsed time above `TAG_GRACE_PERIOD = 2000` ms and zero otherwise — in
particular zero over any prefix of ticks at most 2000 ms, one at the first
exceeding tick, and never a second (this follows by instantiating the trace
with each prefix).  If the playing tag is redetected at a poll before any
grace tick exceeds 2000 ms, zero stop commands are issued over the whole
interval. -/
theorem grace_period_stop_behavior :
    (∀ (s : SystemState) (ticks : List LoopTick),
      s.isSongPlaying = true → s.isTagPresent = false → ticks.all noDetect = true →
        countStops (runLoop s ticks).2
          = if ticks.any (graceExceeds s.lastTagDetectionTime) then 1 else 0)
    ∧ (∀ (s : SystemState) (pre post : List LoopTick) (tr : Nat) (uid : List Nat)
        (page : Option (List Nat)),
      s.isSongPlaying = true → s.isTagPresent = false → 1 ≤ s.currentTrack →
      readSongNumberFromTag page = s.currentTrack →
      pre.all noDetect = true →
      pre.all (fun tk => !graceExceeds s.lastTagDetectionTime tk) = true →
      post.all isGrace = true →
        countStops (runLoop s (pre ++ LoopTick.nfc tr (TagRead.present uid page) :: post)).2
          = 0) :=
  ⟨fun s ticks hp ha hnd => grace_stop_count ticks s hp ha hnd,
   fun s pre post tr uid page hp ha htrk hread hnd hng hpost =>
     redetect_no_stop pre post tr uid page s hp ha htrk hread hnd hng hpost⟩

/-- Witness for C2: removal with ticks at 1000/2100/2500 ms gives one stop;
redetection at 1500 ms gives zero stops. -/
theorem grace_period_stop_behavior_witness :
    countStops (runLoop { initialState with isSongPlaying := true, currentTrack := 5 }
      [LoopTick.grace 1000, LoopTick.grace 2100, LoopTick.grace 2500]).2 = 1
    ∧ countStops (runLoop { initialState with isSongPlaying := true, currentTrack := 5 }
        ([LoopTick.grace 1000]
          ++ LoopTick.nfc 1500 (TagRead.present [1, 2, 3, 4] (some [83, 79, 78, 5]))
            :: [LoopTick.grace 4000])).2 = 0 :=
  ⟨grace_period_stop_behavior.1 { initialState with isSongPlaying := true, currentTrack := 5 }
      [LoopTick.grace 1000, LoopTick.grace 2100, LoopTick.grace 2500]
      rfl rfl (by decide),
   grace_period_stop_behavior.2 { initialState with isSongPlaying := true, currentTrack := 5 }
      [LoopTick.grace 1000] [LoopTick.grace 4000] 1500 [1, 2, 3, 4] (some [83, 79, 78, 5])
      rfl rfl (by decide) (by decide) (by decide) (by decide) (by decide)⟩

/-- C10: After any detection poll — in particular one whose song record is
unreadable or invalid — the tag's UID bytes are stored as `lastUID` (its
length stored when the tag was previously absent), the tag is marked
currently present, and while the same tag stays continuously detected every
subsequent poll emits no command at all, so over the whole trace the
new-tag handler and hence its stop command run at most once. -/
theorem unreadable_tag_handler_runs_once (s : SystemState) (uid : List Nat) (t1 : Nat)
    (page1 : Option (List Nat)) (polls : List (Nat × Option (List Nat)))
    (hlen : uid.length ≤ 7) :
    (checkNFCTag t1 (TagRead.present uid page1) s).1.isTagPresent = true
    ∧ uidsMatch uid (checkNFCTag t1 (TagRead.present uid page1) s).1.lastUID uid.length = true
    ∧ (s.isTagPresent = false →
        (checkNFCTag t1 (TagRead.present uid page1) s).1.lastUIDLength = uid.length)
    ∧ (runLoop (checkNFCTag t1 (TagRead.present uid page1) s).1
        (polls.map fun tp => LoopTick.nfc tp.1 (TagRead.present uid tp.2))).2 = []
    ∧ countStops (runLoop s (LoopTick.nfc t1 (TagRead.present uid page1)
        :: polls.map fun tp => LoopTick.nfc tp.1 (TagRead.present uid tp.2))).2 ≤ 1 := by
  obtain ⟨hpres, hmatch⟩ := checkNFCTag_present_state t1 uid page1 s hlen
  have hrest : (runLoop (checkNFCTag t1 (TagRead.present uid page1) s).1
      (polls.map fun tp => LoopTick.nfc tp.1 (TagRead.present uid tp.2))).2 = [] :=
    runLoop_same_uid polls uid _ hpres hmatch
  refine ⟨hpres, hmatch, ?_, hrest, ?_⟩
  · intro hab
    unfold checkNFCTag
    rw [hab]
    simp
  · simp only [runLoop, loopStep]
    rw [hrest]
    simpa [countStops] using countStops_checkNFCTag_present t1 uid page1 s

/-- Witness for C10: an unprogrammed tag (failed page reads) left on the
reader for three polls. -/
theorem unreadable_tag_handler_runs_once_witness :
    ([1, 2, 3, 4] : List Nat).length ≤ 7
    ∧ (checkNFCTag 100 (TagRead.present [1, 2, 3, 4] none) initialState).1.isTagPresent = true
    ∧ countStops (runLoop initialState (LoopTick.nfc 100 (TagRead.present [1, 2, 3, 4] none)
        :: ([(300, none), (500, none)] : List (Nat × Option (List Nat))).map
            fun tp => LoopTick.nfc tp.1 (TagRead.present [1, 2, 3, 4] tp.2))).2 ≤ 1 :=
  ⟨by decide,
   (unreadable_tag_handler_runs_once initialState [1, 2, 3, 4] 100 none
      [(300, none), (500, none)] (by decide)).1,
   (unreadable_tag_handler_runs_once initialState [1, 2, 3, 4] 100 none
      [(300, none), (500, none)] (by decide)).2.2.2.2⟩

end AvatarMusicBox
